import Mathlib

/-!
Verification development for the batch write execution engine
(`src/mongo/db/commands/write_commands/batch_executor.cpp`).

The C++ unit is shallowly embedded: each function of the source file
(`executeBatch`, `applyWriteItem`, `doWrite`, `doInsert`, `doUpdate`,
`doDelete`, `buildStaleError`, `buildWCError`) becomes a pure Lean
function.  The external collaborators (storage engine, sharding state,
durability waiter) are parametrised by explicit environment records that
carry the outcome each collaborator call would produce, so that the
executor's own control flow and bookkeeping — which is what the claims
are about — is modelled exactly.
-/

namespace BatchExecutor

/-- Error codes used by the batch executor (subset of `mongo::ErrorCodes`
that appears in the source file; `other` carries any remaining numeric
code, e.g. a duplicate-key code coming out of the storage engine). -/
inductive ErrorCode where
  | ok
  | badValue
  | internalError
  | indexAlreadyExists
  | staleShardVersion
  | cannotCreateIndex
  | writeConcernFailed
  | other (code : Nat)
deriving DecidableEq, Repr

/-- Embedding of `mongo::Status`: an error code plus a message. -/
structure Status where
  code : ErrorCode
  msg : String
deriving DecidableEq, Repr

/-- Status::isOK(). -/
def Status.isOK (s : Status) : Bool := s.code == ErrorCode.ok

/-- Status::OK(). -/
def Status.OK : Status := { code := ErrorCode.ok, msg := "" }

/-- Status::toString(); modelled as a rendering that is never empty for a
non-OK status (the real rendering prints the code name and the reason). -/
def statusToString (s : Status) : String := "error " ++ s.msg

/-- Modelled from the spec: `PartitionVersion` is an opaque comparable
version token with an epoch and an ordering component (the `ChunkVersion`
class itself is outside this source file). -/
structure ChunkVersion where
  major : Nat
  minor : Nat
  epoch : Nat
deriving DecidableEq, Repr

/-- Modelled from the spec: the version denoting an unsharded collection,
used when no local collection metadata is cached. -/
def ChunkVersion.UNSHARDED : ChunkVersion := { major := 0, minor := 0, epoch := 0 }

/-- Modelled from the spec: the sentinel "ignore version" value that
disables the shard version check for a request. -/
def ChunkVersion.IGNORED : ChunkVersion := { major := 0, minor := 0, epoch := 1 }

/-- ChunkVersion::isIgnoredVersion(). -/
def ChunkVersion.isIgnoredVersion (v : ChunkVersion) : Bool := v == ChunkVersion.IGNORED

/-- Modelled from the spec: a declared version is write-compatible with
the locally cached version when the epochs are equal and the declared
ordering component is equal or newer (the implementation lives outside
this source file). -/
def ChunkVersion.isWriteCompatibleWith (v other : ChunkVersion) : Bool :=
  v.epoch == other.epoch && other.major ≤ v.major

/-- Embedding of `mongo::WriteErrorDetail`: error code, message and the
optional structured info payload.  The only structured info the source
file ever attaches to a write error is the wanted shard version
(`vWanted`), so the info slot is modelled as an optional version. -/
structure WriteErrorDetail where
  errCode : ErrorCode
  errMessage : String
  errInfo : Option ChunkVersion
deriving DecidableEq, Repr

/-- Embedding of `mongo::WCErrorDetail`: code, message, and whether the
`{ wtimeout: true }` info payload was attached. -/
structure WCErrorDetail where
  errCode : ErrorCode
  errMessage : String
  wtimeout : Bool
deriving DecidableEq, Repr

/-- Embedding of `WriteBatchExecutor::WriteStats`.  The counters are
natural numbers, so non-negativity is inherent in the representation. -/
structure WriteStats where
  numInserted : Nat
  numUpserted : Nat
  numUpdated : Nat
  numModified : Nat
  numDeleted : Nat
deriving DecidableEq, Repr

/-- Freshly zero-initialised stats, as at the top of `executeBatch`. -/
def WriteStats.zero : WriteStats :=
  { numInserted := 0, numUpserted := 0, numUpdated := 0, numModified := 0, numDeleted := 0 }

/-- Componentwise order on the stats counters. -/
def WriteStats.le (a b : WriteStats) : Prop :=
  a.numInserted ≤ b.numInserted ∧ a.numUpserted ≤ b.numUpserted ∧
  a.numUpdated ≤ b.numUpdated ∧ a.numModified ≤ b.numModified ∧
  a.numDeleted ≤ b.numDeleted

instance (a b : WriteStats) : Decidable (WriteStats.le a b) := by
  unfold WriteStats.le; infer_instance

/-- Collection part of a namespace string: the characters after the first
dot.  Mirrors `nsToCollectionSubstring` (declared outside this source
file; modelled from its use: `"db.system.indexes"` yields
`"system.indexes"`). -/
def collSubstringAux : List Char → List Char
  | [] => []
  | c :: rest => if c = '.' then rest else collSubstringAux rest

/-- nsToCollectionSubstring(ns). -/
def nsToCollectionSubstring (ns : String) : String :=
  String.mk (collSubstringAux ns.data)

/-- Insert payload: the source only inspects the `"ns"` element of the
document (on the `system.indexes` path), so the document is modelled by
that element: `none` stands for a missing or non-string `"ns"` element. -/
structure InsertDoc where
  nsField : Option String
deriving DecidableEq, Repr

/-- Outcomes of the storage collaborator calls made by `doInsert` for one
item.  `exception` set means the try-body throws a `UserException` before
any stats counter is touched (every stats update in the source is the
last statement before a successful return). -/
structure InsertEnv where
  exception : Option Status
  collectionExists : Bool
  createCollectionSucceeds : Bool
  createIndexStatus : Status
  fixStatus : Status
  insertStatus : Status
deriving DecidableEq, Repr

/-- Embedding of `mongo::UpdateResult` as consumed by `doUpdate`:
`upserted = none` models an empty `res.upserted` BSONObj, `some id` a
non-empty one carrying the generated identifier. -/
structure UpdateResult where
  numDocsModified : Nat
  existing : Bool
  numMatched : Nat
  upserted : Option Nat
deriving DecidableEq, Repr

/-- Outcome of the `update()` call made by `doUpdate` for one item. -/
structure UpdateEnv where
  exception : Option Status
  res : UpdateResult
deriving DecidableEq, Repr

/-- Outcome of the `deleteObjects()` call made by `doDelete` for one item:
either a thrown `UserException` or the number of documents removed. -/
structure DeleteEnv where
  exception : Option Status
  nDeleted : Nat
deriving DecidableEq, Repr

/-- One batch item together with the storage-collaborator outcomes its
handler would observe.  Items are identified positionally, as in the
source. -/
inductive WriteOp where
  | ins (doc : InsertDoc) (env : InsertEnv)
  | upd (env : UpdateEnv)
  | del (env : DeleteEnv)
deriving DecidableEq, Repr

/-- Result of one operation handler (`doInsert` / `doUpdate` /
`doDelete`): the returned bool, the stats object after the call, the
upserted-id out-parameter and the populated error detail (if any). -/
structure HandlerResult where
  success : Bool
  stats : WriteStats
  upsertedID : Option Nat
  error : Option WriteErrorDetail
deriving DecidableEq, Repr

/-- Embedding of `toBatchedError`: copy a `UserException`'s code and
message into the error detail. -/
def toBatchedError (ex : Status) : WriteErrorDetail :=
  { errCode := ex.code, errMessage := ex.msg, errInfo := none }

/-- Embedding of `WriteBatchExecutor::doInsert`.  The branch on
`system.indexes` mirrors the source: on that path an already-existing
index is reported as success without incrementing `numInserted`; on the
normal path implicit creation, `fixDocumentForInsert` and
`insertDocument` each fail the item with their status, and only the final
success path increments `numInserted`. -/
def doInsert (ns : String) (doc : InsertDoc) (env : InsertEnv) (stats : WriteStats) :
    HandlerResult :=
  if nsToCollectionSubstring ns == "system.indexes" then
    match doc.nsField with
    | none =>
      { success := false, stats := stats, upsertedID := none,
        error := some { errCode := ErrorCode.badValue,
                        errMessage := "tried to create an index without specifying namespace",
                        errInfo := none } }
    | some _targetNS =>
      match env.exception with
      | some ex =>
        { success := false, stats := stats, upsertedID := none,
          error := some (toBatchedError ex) }
      | none =>
        if !env.collectionExists && !env.createCollectionSucceeds then
          { success := false, stats := stats, upsertedID := none,
            error := some { errCode := ErrorCode.internalError,
                            errMessage := "could not create collection",
                            errInfo := none } }
        else if env.createIndexStatus.code == ErrorCode.indexAlreadyExists then
          { success := true, stats := stats, upsertedID := none, error := none }
        else if !env.createIndexStatus.isOK then
          { success := false, stats := stats, upsertedID := none,
            error := some { errCode := env.createIndexStatus.code,
                            errMessage := statusToString env.createIndexStatus,
                            errInfo := none } }
        else
          { success := true,
            stats := { stats with numInserted := stats.numInserted + 1 },
            upsertedID := none, error := none }
  else
    match env.exception with
    | some ex =>
      { success := false, stats := stats, upsertedID := none,
        error := some (toBatchedError ex) }
    | none =>
      if !env.collectionExists && !env.createCollectionSucceeds then
        { success := false, stats := stats, upsertedID := none,
          error := some { errCode := ErrorCode.internalError,
                          errMessage := "could not create collection",
                          errInfo := none } }
      else if !env.fixStatus.isOK then
        { success := false, stats := stats, upsertedID := none,
          error := some { errCode := env.fixStatus.code,
                          errMessage := statusToString env.fixStatus,
                          errInfo := none } }
      else if !env.insertStatus.isOK then
        { success := false, stats := stats, upsertedID := none,
          error := some { errCode := env.insertStatus.code,
                          errMessage := statusToString env.insertStatus,
                          errInfo := none } }
      else
        { success := true,
          stats := { stats with numInserted := stats.numInserted + 1 },
          upsertedID := none, error := none }

/-- Embedding of `WriteBatchExecutor::doUpdate`.  `didInsert` holds when
the update result carries a non-empty upserted id; the three stats
increments mirror the source's conditional expressions, and the upserted
id is surfaced through the out-parameter only when `didInsert`. -/
def doUpdate (env : UpdateEnv) (stats : WriteStats) : HandlerResult :=
  match env.exception with
  | some ex =>
    { success := false, stats := stats, upsertedID := none,
      error := some (toBatchedError ex) }
  | none =>
    let didInsert := env.res.upserted.isSome
    { success := true,
      stats := { stats with
        numModified := stats.numModified + (if didInsert then 0 else env.res.numDocsModified),
        numUpdated := stats.numUpdated + (if didInsert then 0 else env.res.numMatched),
        numUpserted := stats.numUpserted + (if didInsert then 1 else 0) },
      upsertedID := if didInsert then env.res.upserted else none,
      error := none }

/-- Embedding of `WriteBatchExecutor::doDelete`: on success the deleted
counter grows by the number of documents the store removed. -/
def doDelete (env : DeleteEnv) (stats : WriteStats) : HandlerResult :=
  match env.exception with
  | some ex =>
    { success := false, stats := stats, upsertedID := none,
      error := some (toBatchedError ex) }
  | none =>
    { success := true,
      stats := { stats with numDeleted := stats.numDeleted + env.nDeleted },
      upsertedID := none, error := none }

/-- Embedding of `buildStaleError`: stale-shard-version code, a message,
and the wanted version in the structured info payload (`vWanted`). -/
def buildStaleError (recvd wanted : ChunkVersion) : WriteErrorDetail :=
  { errCode := ErrorCode.staleShardVersion,
    errMessage := "stale shard version detected before write",
    errInfo := some wanted }

/-- Embedding of `buildUniqueIndexError`. -/
def buildUniqueIndexError : WriteErrorDetail :=
  { errCode := ErrorCode.cannotCreateIndex,
    errMessage := "cannot create unique index with shard key pattern",
    errInfo := none }

/-- Batch kind tag, uniform across one batch
(`BatchedCommandRequest::BatchType`). -/
inductive BatchType where
  | insert
  | update
  | delete
deriving DecidableEq, Repr

/-- Embedding of `BatchedRequestMetadata`: the shard name and the
optionally-set declared shard version. -/
structure BatchedRequestMetadata where
  shardName : String
  shardVersion : Option ChunkVersion
deriving DecidableEq, Repr

/-- A write-concern specification, identified by the outcome of parsing
it (`WriteConcernOptions::parse`; the parser itself is outside this
source file). -/
structure WriteConcernSpec where
  parseStatus : Status
deriving DecidableEq, Repr

/-- Embedding of `BatchedCommandRequest` as read by the executor: target
namespace, uniform batch kind, `ordered` and `verboseWC` flags, optional
request metadata, optional explicit write concern, whether the request is
a unique-index creation request, and the positional item list (each item
bundled with its storage-collaborator outcomes). -/
structure BatchRequest where
  ns : String
  batchType : BatchType
  ordered : Bool
  verbose : Bool
  metadata : Option BatchedRequestMetadata
  writeConcern : Option WriteConcernSpec
  uniqueIndexRequest : Bool
  items : List WriteOp
deriving DecidableEq, Repr

/-- Process-wide sharding state as read by `doWrite`: whether sharding is
enabled, the locally cached collection metadata (its shard version) for
the targeting namespace, and the outcome of the external
`isUniqueIndexCompatible` check. -/
structure ShardingEnv where
  enabled : Bool
  collectionMetadata : Option ChunkVersion
  uniqueIndexCompatible : Bool
deriving DecidableEq, Repr

/-- Result of `WriteBatchExecutor::doWrite` for one item: the handler
result plus the ghost flag `invokedHandler`, true exactly on the paths
that dispatch to `doInsert` / `doUpdate` / `doDelete` (false on the
stale-version and unique-index early returns). -/
structure WriteResult where
  success : Bool
  stats : WriteStats
  upsertedID : Option Nat
  error : Option WriteErrorDetail
  invokedHandler : Bool
deriving DecidableEq, Repr

/-- The shard version check section at the top of
`WriteBatchExecutor::doWrite` (run under the write lock): it only fires
when sharding is enabled, the request declares a shard version, and that
version is not the ignored sentinel; absent local metadata is treated as
the unsharded version, and an incompatible declared version yields the
stale error built by `buildStaleError`. -/
def shardVersionCheck (req : BatchRequest) (senv : ShardingEnv) :
    Option WriteErrorDetail :=
  if senv.enabled then
    match req.metadata with
    | some rmd =>
      match rmd.shardVersion with
      | some recvd =>
        if ChunkVersion.isIgnoredVersion recvd then none
        else
          let shardVersion := senv.collectionMetadata.getD ChunkVersion.UNSHARDED
          if ChunkVersion.isWriteCompatibleWith recvd shardVersion then none
          else some (buildStaleError recvd shardVersion)
      | none => none
    | none => none
  else none

/-- Embedding of `WriteBatchExecutor::doWrite`: the shard version check
followed by dispatch to the kind-specific handler. -/
def doWrite (req : BatchRequest) (senv : ShardingEnv) (item : WriteOp)
    (stats : WriteStats) : WriteResult :=
  match shardVersionCheck req senv with
  | some err =>
    { success := false, stats := stats, upsertedID := none,
      error := some err, invokedHandler := false }
  | none =>
    match item with
    | WriteOp.ins doc env =>
      if senv.enabled && senv.collectionMetadata.isSome
          && req.uniqueIndexRequest && !senv.uniqueIndexCompatible then
        { success := false, stats := stats, upsertedID := none,
          error := some buildUniqueIndexError, invokedHandler := false }
      else
        let r := doInsert req.ns doc env stats
        { success := r.success, stats := r.stats, upsertedID := none,
          error := r.error, invokedHandler := true }
    | WriteOp.upd env =>
      let r := doUpdate env stats
      { success := r.success, stats := r.stats, upsertedID := r.upsertedID,
        error := r.error, invokedHandler := true }
    | WriteOp.del env =>
      let r := doDelete env stats
      { success := r.success, stats := r.stats, upsertedID := none,
        error := r.error, invokedHandler := true }

/-- Embedding of the `PageFaultException` retry loop in
`WriteBatchExecutor::applyWriteItem`.  `attempts k = none` means the
k-th execution of the loop body throws a `PageFaultException` (the
transient resource fault); `some r` means that attempt completes with
result `r` (success or failure).  The loop has no attempt limit in the
source; the fuel argument makes its possible divergence observable:
`none` means the loop is still retrying after `fuel` attempts. -/
def applyWriteItemLoop (attempts : Nat → Option WriteResult) : Nat → Option WriteResult
  | 0 => none
  | fuel + 1 =>
    match attempts 0 with
    | some r => some r
    | none => applyWriteItemLoop (fun k => attempts (k + 1)) fuel

/-- Per-batch mutable state threaded through `executeBatch`'s item loop,
plus the ghost counters `attempted` and `numSuccesses`. -/
structure LoopState where
  stats : WriteStats
  numItemErrors : Nat
  staleBatch : Bool
  errDetails : List (Nat × WriteErrorDetail)
  upsertDetails : List (Nat × Nat)
  attempted : Nat
  numSuccesses : Nat
deriving DecidableEq, Repr

/-- Loop state at the top of `executeBatch`. -/
def LoopState.init : LoopState :=
  { stats := WriteStats.zero, numItemErrors := 0, staleBatch := false,
    errDetails := [], upsertDetails := [], attempted := 0, numSuccesses := 0 }

/-- Placeholder error detail used when a failed item left no error
populated; every failure path of `doWrite` populates the error, so this
default is never observed. -/
def defaultErrorDetail : WriteErrorDetail :=
  { errCode := ErrorCode.other 8, errMessage := "unknown error", errInfo := none }

/-- Embedding of the per-item loop of `WriteBatchExecutor::executeBatch`
(`for i in 0 .. numBatchItems`): on success an upsert detail is recorded
when verbose and an upserted id was produced; on failure the stale flag
is folded in, the error is recorded when verbose, the error counter is
incremented, and an ordered batch breaks out of the loop. -/
def execLoop (req : BatchRequest) (senv : ShardingEnv) :
    List WriteOp → Nat → LoopState → LoopState
  | [], _, s => s
  | item :: rest, i, s =>
    let r := doWrite req senv item s.stats
    if r.success then
      let upserts : List (Nat × Nat) :=
        match r.upsertedID with
        | some id => if req.verbose then [(i, id)] else []
        | none => []
      execLoop req senv rest (i + 1)
        { s with stats := r.stats,
                 upsertDetails := s.upsertDetails ++ upserts,
                 attempted := s.attempted + 1,
                 numSuccesses := s.numSuccesses + 1 }
    else
      let err := r.error.getD defaultErrorDetail
      let s1 : LoopState :=
        { s with stats := r.stats,
                 staleBatch := s.staleBatch || (err.errCode == ErrorCode.staleShardVersion),
                 errDetails := s.errDetails ++ (if req.verbose then [(i, err)] else []),
                 numItemErrors := s.numItemErrors + 1,
                 attempted := s.attempted + 1 }
      if req.ordered then s1 else execLoop req senv rest (i + 1) s1

/-- Loop state after running the item loop over the whole batch. -/
def finalLoopState (req : BatchRequest) (senv : ShardingEnv) : LoopState :=
  execLoop req senv req.items 0 LoopState.init

/-- Embedding of `buildWCError`: the reported message is the status
rendering when the wait status is not OK, else the `err` field of the
wait result; no message means no error.  The code is the status code, or
`WriteConcernFailed` when only `err` was set, and the
`{ wtimeout: true }` info is attached when the wait timed out. -/
def buildWCError (wcStatus : Status) (err : String) (wTimedOut : Bool) :
    Option WCErrorDetail :=
  let errMsg := if !wcStatus.isOK then statusToString wcStatus
                else if err.length != 0 then err else ""
  if errMsg == "" then none
  else
    some { errCode := if wcStatus.isOK then ErrorCode.writeConcernFailed else wcStatus.code,
           errMessage := errMsg,
           wtimeout := wTimedOut }

/-- Process environment read by `executeBatch` outside the item loop:
replication flag, the client's last-op timestamp, and the outcome the
durability waiter (`waitForWriteConcern`) would report. -/
structure ExecEnv where
  anyReplEnabled : Bool
  lastOp : Nat
  waitStatus : Status
  waitErr : String
  waitTimedOut : Bool
deriving DecidableEq, Repr

/-- Embedding of `BatchedCommandResponse` as populated by
`executeBatch`; `none` for an optional field means the setter was never
called. -/
structure BatchResponse where
  ok : Bool
  n : Option Nat
  nModified : Option Nat
  errDetails : List (Nat × WriteErrorDetail)
  upsertDetails : List (Nat × Nat)
  writeConcernError : Option WCErrorDetail
  lastOp : Option Nat
deriving DecidableEq, Repr

/-- Result of one `executeBatch` run: the response plus ghost
observations — how many items were attempted / succeeded / failed,
whether a stale version was seen, whether the write-concern block was
entered (`numItemErrors < numBatchItems`), and whether
`waitForWriteConcern` was invoked. -/
structure ExecOutcome where
  resp : BatchResponse
  attempted : Nat
  numSuccesses : Nat
  numItemErrors : Nat
  staleBatch : Bool
  wcBlockEntered : Bool
  waitInvoked : Bool
deriving DecidableEq, Repr

/-- Embedding of `WriteBatchExecutor::executeBatch`: run the item loop,
set `lastOp` when replication is on and the response is verbose, apply
write concern when `numItemErrors < numBatchItems` (parse the explicit
spec if set, else the default; a verbose parse failure reports the parse
status without waiting, otherwise the waiter runs and its outcome is
reported through `buildWCError` when verbose), then set `n` (and
`nModified` for update batches) when verbose, and `ok` unconditionally.
The stale-batch metadata refresh is a pure side effect on external state
and is surfaced only through the `staleBatch` ghost flag. -/
def executeBatch (req : BatchRequest) (senv : ShardingEnv) (env : ExecEnv)
    (defaultWriteConcern : WriteConcernSpec) : ExecOutcome :=
  let numBatchItems := req.items.length
  let s := finalLoopState req senv
  let lastOp := if env.anyReplEnabled && req.verbose then some env.lastOp else none
  let wcBlockEntered := s.numItemErrors < numBatchItems
  let parseStatus := (req.writeConcern.getD defaultWriteConcern).parseStatus
  let wcPair : Option WCErrorDetail × Bool :=
    if wcBlockEntered then
      if !parseStatus.isOK && req.verbose then
        (some { errCode := parseStatus.code,
                errMessage := statusToString parseStatus,
                wtimeout := false }, false)
      else
        (if req.verbose then buildWCError env.waitStatus env.waitErr env.waitTimedOut
         else none, true)
    else (none, false)
  let n := if req.verbose then
             some (s.stats.numInserted + s.stats.numUpserted + s.stats.numUpdated
                   + s.stats.numDeleted)
           else none
  let nModified := if req.verbose && req.batchType == BatchType.update then
                     some s.stats.numModified
                   else none
  { resp := { ok := true, n := n, nModified := nModified,
              errDetails := s.errDetails, upsertDetails := s.upsertDetails,
              writeConcernError := wcPair.1, lastOp := lastOp },
    attempted := s.attempted,
    numSuccesses := s.numSuccesses,
    numItemErrors := s.numItemErrors,
    staleBatch := s.staleBatch,
    wcBlockEntered := wcBlockEntered,
    waitInvoked := wcPair.2 }

/-! Concrete fixtures used to evaluate the model on closed inputs. -/

/-- Sharding disabled; the shard version check is skipped entirely. -/
def noSharding : ShardingEnv :=
  { enabled := false, collectionMetadata := none, uniqueIndexCompatible := true }

/-- Environment where replication is off and the durability waiter
reports success. -/
def quietEnv : ExecEnv :=
  { anyReplEnabled := false, lastOp := 0, waitStatus := Status.OK,
    waitErr := "", waitTimedOut := false }

/-- A write concern spec that parses fine. -/
def okWC : WriteConcernSpec := { parseStatus := Status.OK }

/-- A write concern spec whose parse fails. -/
def badWC : WriteConcernSpec :=
  { parseStatus := { code := ErrorCode.other 2, msg := "bad w value" } }

/-- Storage outcomes for an insert that goes through cleanly. -/
def okInsEnv : InsertEnv :=
  { exception := none, collectionExists := true, createCollectionSucceeds := true,
    createIndexStatus := Status.OK, fixStatus := Status.OK, insertStatus := Status.OK }

/-- An insert item that succeeds. -/
def okIns : WriteOp := WriteOp.ins { nsField := none } okInsEnv

/-- Storage outcomes for an insert whose `insertDocument` call fails with
a duplicate-key-class error. -/
def dupInsEnv : InsertEnv :=
  { okInsEnv with insertStatus := { code := ErrorCode.other 11000, msg := "duplicate key" } }

/-- An insert item that fails at `insertDocument`. -/
def failIns : WriteOp := WriteOp.ins { nsField := none } dupInsEnv

/-- The error detail `doWrite` produces for `failIns`. -/
def dupErr : WriteErrorDetail :=
  { errCode := ErrorCode.other 11000,
    errMessage := statusToString { code := ErrorCode.other 11000, msg := "duplicate key" },
    errInfo := none }

/-! Helper lemmas about the stats accounting of the handlers. -/

theorem WriteStats.le_refl (a : WriteStats) : WriteStats.le a a := by
  simp [WriteStats.le]

theorem WriteStats.le_trans {a b c : WriteStats}
    (h1 : WriteStats.le a b) (h2 : WriteStats.le b c) : WriteStats.le a c := by
  unfold WriteStats.le at h1 h2 ⊢
  omega

/-- Every exit of `doInsert` either leaves the stats untouched, or is a
success that bumps exactly `numInserted` by one. -/
theorem doInsert_stats_cases (ns : String) (doc : InsertDoc) (env : InsertEnv)
    (stats : WriteStats) :
    (doInsert ns doc env stats).stats = stats ∨
    ((doInsert ns doc env stats).success = true ∧
     (doInsert ns doc env stats).stats =
       { stats with numInserted := stats.numInserted + 1 }) := by
  unfold doInsert
  repeat' split
  all_goals simp

/-- Every exit of `doUpdate` either leaves the stats untouched, or is a
success applying exactly the three conditional increments of the source. -/
theorem doUpdate_stats_cases (env : UpdateEnv) (stats : WriteStats) :
    (doUpdate env stats).stats = stats ∨
    ((doUpdate env stats).success = true ∧
     (doUpdate env stats).stats =
       { stats with
         numModified := stats.numModified
           + (if env.res.upserted.isSome then 0 else env.res.numDocsModified),
         numUpdated := stats.numUpdated
           + (if env.res.upserted.isSome then 0 else env.res.numMatched),
         numUpserted := stats.numUpserted
           + (if env.res.upserted.isSome then 1 else 0) }) := by
  unfold doUpdate
  split
  · simp
  · simp

/-- Every exit of `doDelete` either leaves the stats untouched, or is a
success bumping exactly `numDeleted` by the removed count. -/
theorem doDelete_stats_cases (env : DeleteEnv) (stats : WriteStats) :
    (doDelete env stats).stats = stats ∨
    ((doDelete env stats).success = true ∧
     (doDelete env stats).stats =
       { stats with numDeleted := stats.numDeleted + env.nDeleted }) := by
  unfold doDelete
  split
  · simp
  · simp

/-- The stats object only ever grows across one `doWrite` call. -/
theorem doWrite_stats_le (req : BatchRequest) (senv : ShardingEnv) (item : WriteOp)
    (stats : WriteStats) :
    WriteStats.le stats (doWrite req senv item stats).stats := by
  unfold doWrite
  cases h : shardVersionCheck req senv with
  | some err => exact WriteStats.le_refl stats
  | none =>
    cases item with
    | ins doc env =>
      simp only []
      split
      · exact WriteStats.le_refl stats
      · rcases doInsert_stats_cases req.ns doc env stats with h2 | ⟨_, h2⟩ <;>
          simp [h2, WriteStats.le]
    | upd env =>
      rcases doUpdate_stats_cases env stats with h2 | ⟨_, h2⟩ <;>
        simp [h2, WriteStats.le]
    | del env =>
      rcases doDelete_stats_cases env stats with h2 | ⟨_, h2⟩ <;>
        simp [h2, WriteStats.le]

/-- A failed `doWrite` leaves every stats counter unchanged. -/
theorem doWrite_fail_stats (req : BatchRequest) (senv : ShardingEnv) (item : WriteOp)
    (stats : WriteStats)
    (hfail : (doWrite req senv item stats).success = false) :
    (doWrite req senv item stats).stats = stats := by
  unfold doWrite at hfail ⊢
  cases h : shardVersionCheck req senv with
  | some err => simp [h]
  | none =>
    rw [h] at hfail
    cases item with
    | ins doc env =>
      simp only [] at hfail ⊢
      split at hfail
      · rename_i hcond
        simp only [if_pos hcond]
      · rename_i hcond
        simp only [if_neg hcond] at hfail ⊢
        rcases doInsert_stats_cases req.ns doc env stats with h2 | ⟨hs, _⟩
        · simpa using h2
        · simp only [hs] at hfail
          cases hfail
    | upd env =>
      simp only [] at hfail ⊢
      rcases doUpdate_stats_cases env stats with h2 | ⟨hs, _⟩
      · simpa using h2
      · simp only [hs] at hfail
        cases hfail
    | del env =>
      simp only [] at hfail ⊢
      rcases doDelete_stats_cases env stats with h2 | ⟨hs, _⟩
      · simpa using h2
      · simp only [hs] at hfail
        cases hfail

/-- The stats object only ever grows across the item loop. -/
theorem execLoop_stats_le (req : BatchRequest) (senv : ShardingEnv) :
    ∀ (items : List WriteOp) (i : Nat) (s : LoopState),
      WriteStats.le s.stats (execLoop req senv items i s).stats := by
  intro items
  induction items with
  | nil => intro i s; exact WriteStats.le_refl s.stats
  | cons item rest ih =>
    intro i s
    simp only [execLoop]
    split
    · have step : ∀ s2 : LoopState, s2.stats = (doWrite req senv item s.stats).stats →
          WriteStats.le s.stats (execLoop req senv rest (i + 1) s2).stats := by
        intro s2 hs2
        refine WriteStats.le_trans ?_ (ih (i + 1) s2)
        rw [hs2]
        exact doWrite_stats_le req senv item s.stats
      exact step _ rfl
    · split
      · exact doWrite_stats_le req senv item s.stats
      · have step : ∀ s2 : LoopState, s2.stats = (doWrite req senv item s.stats).stats →
            WriteStats.le s.stats (execLoop req senv rest (i + 1) s2).stats := by
          intro s2 hs2
          refine WriteStats.le_trans ?_ (ih (i + 1) s2)
          rw [hs2]
          exact doWrite_stats_le req senv item s.stats
        exact step _ rfl

/-- The attempted-item count after an ordered batch stops at the first
failing item `y`: the `xs.length` successes before it plus one. -/
theorem execLoop_stop_attempted (req : BatchRequest) (senv : ShardingEnv)
    (y : WriteOp)
    (hord : req.ordered = true)
    (hy : ∀ st, (doWrite req senv y st).success = false) :
    ∀ (xs zs : List WriteOp) (i : Nat) (s : LoopState),
      (∀ x ∈ xs, ∀ st, (doWrite req senv x st).success = true) →
      (execLoop req senv (xs ++ y :: zs) i s).attempted = s.attempted + xs.length + 1 := by
  intro xs
  induction xs with
  | nil =>
    intro zs i s _
    simp [execLoop, hy s.stats, hord]
  | cons x xs ih =>
    intro zs i s hxs
    have hx := hxs x (List.mem_cons_self x xs) s.stats
    simp only [List.cons_append, execLoop]
    rw [if_pos hx]
    simp only [List.append_eq]
    rw [ih zs (i + 1) _ (fun z hmem st => hxs z (List.mem_cons_of_mem x hmem) st)]
    simp
    try omega

/-- The success count after an ordered batch stops at the first failing
item `y` is the length of the succeeding prefix. -/
theorem execLoop_stop_numSuccesses (req : BatchRequest) (senv : ShardingEnv)
    (y : WriteOp)
    (hord : req.ordered = true)
    (hy : ∀ st, (doWrite req senv y st).success = false) :
    ∀ (xs zs : List WriteOp) (i : Nat) (s : LoopState),
      (∀ x ∈ xs, ∀ st, (doWrite req senv x st).success = true) →
      (execLoop req senv (xs ++ y :: zs) i s).numSuccesses = s.numSuccesses + xs.length := by
  intro xs
  induction xs with
  | nil =>
    intro zs i s _
    simp [execLoop, hy s.stats, hord]
  | cons x xs ih =>
    intro zs i s hxs
    have hx := hxs x (List.mem_cons_self x xs) s.stats
    simp only [List.cons_append, execLoop]
    rw [if_pos hx]
    simp only [List.append_eq]
    rw [ih zs (i + 1) _ (fun z hmem st => hxs z (List.mem_cons_of_mem x hmem) st)]
    simp
    try omega

/-- Exactly one item error is recorded when an ordered batch stops at the
first failing item. -/
theorem execLoop_stop_numItemErrors (req : BatchRequest) (senv : ShardingEnv)
    (y : WriteOp)
    (hord : req.ordered = true)
    (hy : ∀ st, (doWrite req senv y st).success = false) :
    ∀ (xs zs : List WriteOp) (i : Nat) (s : LoopState),
      (∀ x ∈ xs, ∀ st, (doWrite req senv x st).success = true) →
      (execLoop req senv (xs ++ y :: zs) i s).numItemErrors = s.numItemErrors + 1 := by
  intro xs
  induction xs with
  | nil =>
    intro zs i s _
    simp [execLoop, hy s.stats, hord]
  | cons x xs ih =>
    intro zs i s hxs
    have hx := hxs x (List.mem_cons_self x xs) s.stats
    simp only [List.cons_append, execLoop]
    rw [if_pos hx]
    simp only [List.append_eq]
    rw [ih zs (i + 1) _ (fun z hmem st => hxs z (List.mem_cons_of_mem x hmem) st)]

/-- The error list after an ordered batch stops at the first failing item
`y` (whose populated error is `e`) gains exactly one entry, at `y`'s
index, and only when verbose. -/
theorem execLoop_stop_errDetails (req : BatchRequest) (senv : ShardingEnv)
    (y : WriteOp) (e : WriteErrorDetail)
    (hord : req.ordered = true)
    (hy : ∀ st, (doWrite req senv y st).success = false)
    (he : ∀ st, (doWrite req senv y st).error = some e) :
    ∀ (xs zs : List WriteOp) (i : Nat) (s : LoopState),
      (∀ x ∈ xs, ∀ st, (doWrite req senv x st).success = true) →
      (execLoop req senv (xs ++ y :: zs) i s).errDetails =
        s.errDetails ++ (if req.verbose then [(i + xs.length, e)] else []) := by
  intro xs
  induction xs with
  | nil =>
    intro zs i s _
    simp [execLoop, hy s.stats, he s.stats, hord]
  | cons x xs ih =>
    intro zs i s hxs
    have hx := hxs x (List.mem_cons_self x xs) s.stats
    simp only [List.cons_append, execLoop]
    rw [if_pos hx]
    simp only [List.append_eq]
    rw [ih zs (i + 1) _ (fun z hmem st => hxs z (List.mem_cons_of_mem x hmem) st)]
    have harith : i + 1 + xs.length = i + (xs.length + 1) := by omega
    simp [harith]

/-- A run of the retry loop whose first completed attempt is attempt `j`
returns that attempt's result, given enough fuel: page faults (`none`
entries) before `j` are retried, and the first non-page-fault outcome —
success or failure alike — is returned as is. -/
theorem applyWriteItemLoop_first_done :
    ∀ (j : Nat) (attempts : Nat → Option WriteResult) (r : WriteResult),
      (∀ k, k < j → attempts k = none) → attempts j = some r →
      ∀ fuel, j < fuel → applyWriteItemLoop attempts fuel = some r := by
  intro j
  induction j with
  | zero =>
    intro attempts r _ h0 fuel hf
    match fuel, hf with
    | f + 1, _ => simp [applyWriteItemLoop, h0]
  | succ n ih =>
    intro attempts r hk hj fuel hf
    match fuel, hf with
    | f + 1, hf =>
      simp only [applyWriteItemLoop, hk 0 (Nat.succ_pos n)]
      exact ih (fun k => attempts (k + 1)) r
        (fun k hkn => hk (k + 1) (Nat.succ_lt_succ hkn)) hj f (Nat.lt_of_succ_lt_succ hf)

/-- If every attempt of the retry loop page-faults, the loop never
produces a result, whatever the fuel: the source imposes no attempt
limit. -/
theorem applyWriteItemLoop_all_pagefault :
    ∀ (fuel : Nat) (attempts : Nat → Option WriteResult),
      (∀ k, attempts k = none) → applyWriteItemLoop attempts fuel = none := by
  intro fuel
  induction fuel with
  | zero => intro attempts _; rfl
  | succ f ih =>
    intro attempts hall
    simp only [applyWriteItemLoop, hall 0]
    exact ih (fun k => attempts (k + 1)) (fun k => hall (k + 1))

/-! Claim-specific fixtures. -/

/-- A one-item delete batch whose delete removes two documents. -/
def c1Req : BatchRequest :=
  { ns := "test.coll", batchType := BatchType.delete, ordered := false, verbose := true,
    metadata := none, writeConcern := none, uniqueIndexRequest := false,
    items := [WriteOp.del { exception := none, nDeleted := 2 }] }

/-- An ordered, verbose insert batch shaped `[ok, fail, ok]`. -/
def c2Req : BatchRequest :=
  { ns := "test.coll", batchType := BatchType.insert, ordered := true, verbose := true,
    metadata := none, writeConcern := none, uniqueIndexRequest := false,
    items := [okIns, failIns, okIns] }

/-- Sharding state whose cached local version is newer than `⟨1, 0, 5⟩`. -/
def staleSharding : ShardingEnv :=
  { enabled := true, collectionMetadata := some { major := 2, minor := 0, epoch := 5 },
    uniqueIndexCompatible := true }

/-- Request metadata declaring the older shard version `⟨1, 0, 5⟩`. -/
def staleMeta : BatchedRequestMetadata :=
  { shardName := "shard0", shardVersion := some { major := 1, minor := 0, epoch := 5 } }

/-- A one-item insert batch declaring a stale shard version. -/
def c3Req : BatchRequest :=
  { ns := "test.coll", batchType := BatchType.insert, ordered := true, verbose := true,
    metadata := some staleMeta, writeConcern := none, uniqueIndexRequest := false,
    items := [okIns] }

/-- An update whose store outcome is an upsert with generated id 42. -/
def upsertEnv : UpdateEnv :=
  { exception := none,
    res := { numDocsModified := 0, existing := false, numMatched := 0, upserted := some 42 } }

/-- An ordered two-item batch whose first item fails: one recorded error
against two batch items. -/
def c5Req : BatchRequest :=
  { ns := "test.coll", batchType := BatchType.insert, ordered := true, verbose := true,
    metadata := none, writeConcern := none, uniqueIndexRequest := false,
    items := [failIns, okIns] }

/-- A non-verbose one-item batch (the item succeeds) carrying a write
concern that fails to parse. -/
def c6Req : BatchRequest :=
  { ns := "test.coll", batchType := BatchType.insert, ordered := false, verbose := false,
    metadata := none, writeConcern := some badWC, uniqueIndexRequest := false,
    items := [okIns] }

/-- The verbose variant of `c6Req`. -/
def c6vReq : BatchRequest := { c6Req with verbose := true }

/-- A completed attempt result used to exercise the retry loop. -/
def c7Result : WriteResult :=
  { success := true, stats := WriteStats.zero, upsertedID := none,
    error := none, invokedHandler := true }

/-- An attempt stream that page-faults twice and then completes. -/
def c7Attempts : Nat → Option WriteResult :=
  fun k => if k < 2 then none else some c7Result

/-- The non-verbose variant of the two-document delete batch. -/
def c9Req : BatchRequest := { c1Req with verbose := false }

/-- Insert-path outcomes where `createIndex` reports the index already
exists. -/
def idxExistsEnv : InsertEnv :=
  { exception := none, collectionExists := true, createCollectionSucceeds := true,
    createIndexStatus := { code := ErrorCode.indexAlreadyExists, msg := "index already exists" },
    fixStatus := Status.OK, insertStatus := Status.OK }

/-- An index-creation document naming its target collection. -/
def idxDoc : InsertDoc := { nsField := some "db.coll" }

/-! The claims. -/

/-- C1, counterexample: in the one-item delete batch `c1Req` the single
item succeeds after removing two documents, yet the response sets
`n = 2`, not the success count 1 — `n` is the sum of the per-kind
counters, not the number of successful items. -/
theorem c1_n_not_success_count :
    (executeBatch c1Req noSharding quietEnv okWC).numSuccesses = 1 ∧
    (executeBatch c1Req noSharding quietEnv okWC).resp.n = some 2 ∧
    (executeBatch c1Req noSharding quietEnv okWC).resp.n ≠
      some (executeBatch c1Req noSharding quietEnv okWC).numSuccesses := by
  decide

/-- C1, amended: for every executed batch, when the response is verbose,
`n` equals `numInserted + numUpserted + numUpdated + numDeleted` as
accumulated by the handlers over the attempted items (each successful
item contributes its own document count, not necessarily 1). -/
theorem c1_n_is_counter_sum (req : BatchRequest) (senv : ShardingEnv) (env : ExecEnv)
    (dwc : WriteConcernSpec) (hv : req.verbose = true) :
    (executeBatch req senv env dwc).resp.n =
      some ((finalLoopState req senv).stats.numInserted
            + (finalLoopState req senv).stats.numUpserted
            + (finalLoopState req senv).stats.numUpdated
            + (finalLoopState req senv).stats.numDeleted) := by
  unfold executeBatch
  simp [hv]

theorem c1_n_is_counter_sum_witness :
    c1Req.verbose = true ∧
    (executeBatch c1Req noSharding quietEnv okWC).resp.n =
      some ((finalLoopState c1Req noSharding).stats.numInserted
            + (finalLoopState c1Req noSharding).stats.numUpserted
            + (finalLoopState c1Req noSharding).stats.numUpdated
            + (finalLoopState c1Req noSharding).stats.numDeleted) :=
  ⟨rfl, c1_n_is_counter_sum c1Req noSharding quietEnv okWC rfl⟩

/-- C2: in an ordered batch whose items are a succeeding prefix `xs`, a
failing item `y` (with populated error `e`) and an arbitrary tail `zs`,
iteration stops at `y`: exactly `xs.length + 1` items are attempted (the
tail is never attempted), there are exactly `xs.length` successes, one
recorded item error, and the error list holds exactly one entry at `y`'s
index (when verbose). -/
theorem c2_ordered_stop (req : BatchRequest) (senv : ShardingEnv) (env : ExecEnv)
    (dwc : WriteConcernSpec) (xs zs : List WriteOp) (y : WriteOp) (e : WriteErrorDetail)
    (hord : req.ordered = true)
    (hitems : req.items = xs ++ y :: zs)
    (hxs : ∀ x ∈ xs, ∀ st, (doWrite req senv x st).success = true)
    (hy : ∀ st, (doWrite req senv y st).success = false)
    (he : ∀ st, (doWrite req senv y st).error = some e) :
    (executeBatch req senv env dwc).attempted = xs.length + 1 ∧
    (executeBatch req senv env dwc).numSuccesses = xs.length ∧
    (executeBatch req senv env dwc).numItemErrors = 1 ∧
    (executeBatch req senv env dwc).resp.errDetails =
      (if req.verbose then [(xs.length, e)] else []) := by
  have h1 := execLoop_stop_attempted req senv y hord hy xs zs 0 LoopState.init hxs
  have h2 := execLoop_stop_numSuccesses req senv y hord hy xs zs 0 LoopState.init hxs
  have h3 := execLoop_stop_numItemErrors req senv y hord hy xs zs 0 LoopState.init hxs
  have h4 := execLoop_stop_errDetails req senv y e hord hy he xs zs 0 LoopState.init hxs
  unfold executeBatch finalLoopState
  rw [hitems]
  simp only [LoopState.init] at h1 h2 h3 h4
  refine ⟨by simpa using h1, by simpa using h2, by simpa using h3, by simpa using h4⟩

theorem c2_ordered_stop_witness :
    c2Req.ordered = true ∧
    c2Req.items = [okIns] ++ failIns :: [okIns] ∧
    ((executeBatch c2Req noSharding quietEnv okWC).attempted = [okIns].length + 1 ∧
     (executeBatch c2Req noSharding quietEnv okWC).numSuccesses = [okIns].length ∧
     (executeBatch c2Req noSharding quietEnv okWC).numItemErrors = 1 ∧
     (executeBatch c2Req noSharding quietEnv okWC).resp.errDetails =
       (if c2Req.verbose then [([okIns].length, dupErr)] else [])) ∧
    (executeBatch c2Req noSharding quietEnv okWC).resp.n = some 1 :=
  ⟨rfl, rfl,
   c2_ordered_stop c2Req noSharding quietEnv okWC [okIns] [okIns] failIns dupErr rfl rfl
     (by
       intro x hx st
       rw [List.mem_singleton] at hx
       subst hx
       rfl)
     (fun st => rfl) (fun st => rfl),
   by decide⟩

/-- C3: when sharding is enabled and the request declares a non-ignored
shard version that is not write-compatible with the locally cached
version (absent metadata read as unsharded), the item fails, its error
carries the stale-shard-version code and the wanted local version in the
structured info, no operation handler is invoked, and the stats are
untouched. -/
theorem c3_stale_version_short_circuit
    (req : BatchRequest) (senv : ShardingEnv) (item : WriteOp) (stats : WriteStats)
    (rmd : BatchedRequestMetadata) (recvd : ChunkVersion)
    (hen : senv.enabled = true)
    (hmd : req.metadata = some rmd)
    (hsv : rmd.shardVersion = some recvd)
    (hig : ChunkVersion.isIgnoredVersion recvd = false)
    (hcompat : ChunkVersion.isWriteCompatibleWith recvd
      (senv.collectionMetadata.getD ChunkVersion.UNSHARDED) = false) :
    (doWrite req senv item stats).success = false ∧
    (doWrite req senv item stats).error =
      some (buildStaleError recvd (senv.collectionMetadata.getD ChunkVersion.UNSHARDED)) ∧
    (buildStaleError recvd (senv.collectionMetadata.getD ChunkVersion.UNSHARDED)).errCode
      = ErrorCode.staleShardVersion ∧
    (buildStaleError recvd (senv.collectionMetadata.getD ChunkVersion.UNSHARDED)).errInfo
      = some (senv.collectionMetadata.getD ChunkVersion.UNSHARDED) ∧
    (doWrite req senv item stats).invokedHandler = false ∧
    (doWrite req senv item stats).stats = stats := by
  have hcheck : shardVersionCheck req senv =
      some (buildStaleError recvd (senv.collectionMetadata.getD ChunkVersion.UNSHARDED)) := by
    unfold shardVersionCheck
    simp [hen, hmd, hsv, hig, hcompat]
  unfold doWrite
  rw [hcheck]
  simp [buildStaleError]

theorem c3_stale_version_witness :
    staleSharding.enabled = true ∧
    c3Req.metadata = some staleMeta ∧
    staleMeta.shardVersion = some { major := 1, minor := 0, epoch := 5 } ∧
    ChunkVersion.isIgnoredVersion { major := 1, minor := 0, epoch := 5 } = false ∧
    ChunkVersion.isWriteCompatibleWith { major := 1, minor := 0, epoch := 5 }
      (staleSharding.collectionMetadata.getD ChunkVersion.UNSHARDED) = false ∧
    ((doWrite c3Req staleSharding okIns WriteStats.zero).success = false ∧
     (doWrite c3Req staleSharding okIns WriteStats.zero).error =
       some (buildStaleError { major := 1, minor := 0, epoch := 5 }
         (staleSharding.collectionMetadata.getD ChunkVersion.UNSHARDED)) ∧
     (buildStaleError { major := 1, minor := 0, epoch := 5 }
       (staleSharding.collectionMetadata.getD ChunkVersion.UNSHARDED)).errCode
       = ErrorCode.staleShardVersion ∧
     (buildStaleError { major := 1, minor := 0, epoch := 5 }
       (staleSharding.collectionMetadata.getD ChunkVersion.UNSHARDED)).errInfo
       = some (staleSharding.collectionMetadata.getD ChunkVersion.UNSHARDED) ∧
     (doWrite c3Req staleSharding okIns WriteStats.zero).invokedHandler = false ∧
     (doWrite c3Req staleSharding okIns WriteStats.zero).stats = WriteStats.zero) :=
  ⟨rfl, rfl, rfl, by decide, by decide,
   c3_stale_version_short_circuit c3Req staleSharding okIns WriteStats.zero staleMeta
     { major := 1, minor := 0, epoch := 5 } rfl rfl rfl (by decide) (by decide)⟩

/-- C4: for an update item that does not throw, the upsert increment and
the matched/modified increments are mutually exclusive: if the store
returned a non-empty upserted id, `numUpserted` grows by exactly one,
`numUpdated` and `numModified` are unchanged and the generated id is
surfaced through the out-parameter; otherwise `numUpserted` is unchanged
and `numUpdated` / `numModified` grow by the matched / modified counts. -/
theorem c4_upsert_mutually_exclusive (env : UpdateEnv) (stats : WriteStats)
    (hexc : env.exception = none) :
    (env.res.upserted.isSome = true →
      (doUpdate env stats).stats.numUpserted = stats.numUpserted + 1 ∧
      (doUpdate env stats).stats.numUpdated = stats.numUpdated ∧
      (doUpdate env stats).stats.numModified = stats.numModified ∧
      (doUpdate env stats).upsertedID = env.res.upserted) ∧
    (env.res.upserted.isSome = false →
      (doUpdate env stats).stats.numUpserted = stats.numUpserted ∧
      (doUpdate env stats).stats.numUpdated = stats.numUpdated + env.res.numMatched ∧
      (doUpdate env stats).stats.numModified = stats.numModified + env.res.numDocsModified ∧
      (doUpdate env stats).upsertedID = none) := by
  unfold doUpdate
  rw [hexc]
  constructor <;> intro h <;> simp [h]

theorem c4_upsert_witness :
    upsertEnv.exception = none ∧
    upsertEnv.res.upserted.isSome = true ∧
    ((doUpdate upsertEnv WriteStats.zero).stats.numUpserted
        = WriteStats.zero.numUpserted + 1 ∧
     (doUpdate upsertEnv WriteStats.zero).stats.numUpdated = WriteStats.zero.numUpdated ∧
     (doUpdate upsertEnv WriteStats.zero).stats.numModified = WriteStats.zero.numModified ∧
     (doUpdate upsertEnv WriteStats.zero).upsertedID = upsertEnv.res.upserted) :=
  ⟨rfl, rfl, (c4_upsert_mutually_exclusive upsertEnv WriteStats.zero rfl).1 rfl⟩

/-- C5: evaluating the code at the failing input — an ordered two-item
batch whose first item fails, so zero items succeeded — shows the
write-concern block is still entered (`1 item error < 2 batch items`) and
the durability wait is invoked, contradicting the claim (and the source's
own comment) that write concern is applied only when some write
succeeded. -/
theorem c5_wc_runs_with_zero_successes :
    (executeBatch c5Req noSharding quietEnv okWC).numSuccesses = 0 ∧
    (executeBatch c5Req noSharding quietEnv okWC).numItemErrors = 1 ∧
    (executeBatch c5Req noSharding quietEnv okWC).wcBlockEntered = true ∧
    (executeBatch c5Req noSharding quietEnv okWC).waitInvoked = true := by
  decide

/-- C6, counterexample: in the non-verbose batch `c6Req` the effective
write concern fails to parse, yet the durability wait is still invoked
and no write-concern error is reported — the claim's guarantee only holds
when verbose. -/
theorem c6_parse_failure_not_verbose :
    ((c6Req.writeConcern.getD okWC).parseStatus).isOK = false ∧
    (executeBatch c6Req noSharding quietEnv okWC).waitInvoked = true ∧
    (executeBatch c6Req noSharding quietEnv okWC).resp.writeConcernError = none := by
  decide

/-- C6, amended: when the response is verbose, some item did not fail,
and the effective write concern fails to parse, a structured write-
concern error carrying the parse-failure code is reported and the
durability wait is never invoked. -/
theorem c6_parse_failure_verbose (req : BatchRequest) (senv : ShardingEnv) (env : ExecEnv)
    (dwc : WriteConcernSpec)
    (hv : req.verbose = true)
    (hparse : ((req.writeConcern.getD dwc).parseStatus).isOK = false)
    (hblock : (finalLoopState req senv).numItemErrors < req.items.length) :
    (executeBatch req senv env dwc).resp.writeConcernError =
      some { errCode := ((req.writeConcern.getD dwc).parseStatus).code,
             errMessage := statusToString ((req.writeConcern.getD dwc).parseStatus),
             wtimeout := false } ∧
    (executeBatch req senv env dwc).waitInvoked = false := by
  unfold executeBatch
  simp [hv, hparse, hblock]

theorem c6_parse_failure_verbose_witness :
    c6vReq.verbose = true ∧
    ((c6vReq.writeConcern.getD okWC).parseStatus).isOK = false ∧
    (finalLoopState c6vReq noSharding).numItemErrors < c6vReq.items.length ∧
    ((executeBatch c6vReq noSharding quietEnv okWC).resp.writeConcernError =
       some { errCode := ((c6vReq.writeConcern.getD okWC).parseStatus).code,
              errMessage := statusToString ((c6vReq.writeConcern.getD okWC).parseStatus),
              wtimeout := false } ∧
     (executeBatch c6vReq noSharding quietEnv okWC).waitInvoked = false) :=
  ⟨rfl, by decide, by decide,
   c6_parse_failure_verbose c6vReq noSharding quietEnv okWC rfl (by decide) (by decide)⟩

/-- C7: the per-item retry loop re-attempts exactly on the transient
page-fault signal and on nothing else — the first attempt that completes
(whether its result is success or failure) is returned as soon as the
fuel exceeds its index, and a stream of nothing but page faults is
retried forever: no fuel bound makes the loop produce a result. -/
theorem c7_transient_fault_retry (attempts : Nat → Option WriteResult) :
    (∀ j r, (∀ k, k < j → attempts k = none) → attempts j = some r →
       ∀ fuel, j < fuel → applyWriteItemLoop attempts fuel = some r) ∧
    ((∀ k, attempts k = none) → ∀ fuel, applyWriteItemLoop attempts fuel = none) :=
  ⟨fun j r hk hj fuel hf => applyWriteItemLoop_first_done j attempts r hk hj fuel hf,
   fun hall fuel => applyWriteItemLoop_all_pagefault fuel attempts hall⟩

theorem c7_transient_fault_retry_witness :
    (∀ k, k < 2 → c7Attempts k = none) ∧
    c7Attempts 2 = some c7Result ∧
    applyWriteItemLoop c7Attempts 5 = some c7Result :=
  ⟨by decide, rfl,
   (c7_transient_fault_retry c7Attempts).1 2 c7Result (by decide) rfl 5 (by decide)⟩

/-- C8: the five stats counters (natural numbers, hence non-negative)
are monotonically non-decreasing across every `doWrite` call and across
the whole item loop; a failed attempt leaves every counter unchanged,
and each kind's handler touches only its own counters (insert touches
only `numInserted`; update only `numUpserted` / `numUpdated` /
`numModified`; delete only `numDeleted`). -/
theorem c8_stats_counter_invariants (req : BatchRequest) (senv : ShardingEnv) :
    (∀ item stats, WriteStats.le stats (doWrite req senv item stats).stats) ∧
    (∀ item stats, (doWrite req senv item stats).success = false →
       (doWrite req senv item stats).stats = stats) ∧
    (∀ doc ienv stats,
       (doWrite req senv (WriteOp.ins doc ienv) stats).stats.numUpserted
         = stats.numUpserted ∧
       (doWrite req senv (WriteOp.ins doc ienv) stats).stats.numUpdated
         = stats.numUpdated ∧
       (doWrite req senv (WriteOp.ins doc ienv) stats).stats.numModified
         = stats.numModified ∧
       (doWrite req senv (WriteOp.ins doc ienv) stats).stats.numDeleted
         = stats.numDeleted) ∧
    (∀ uenv stats,
       (doWrite req senv (WriteOp.upd uenv) stats).stats.numInserted
         = stats.numInserted ∧
       (doWrite req senv (WriteOp.upd uenv) stats).stats.numDeleted
         = stats.numDeleted) ∧
    (∀ denv stats,
       (doWrite req senv (WriteOp.del denv) stats).stats.numInserted
         = stats.numInserted ∧
       (doWrite req senv (WriteOp.del denv) stats).stats.numUpserted
         = stats.numUpserted ∧
       (doWrite req senv (WriteOp.del denv) stats).stats.numUpdated
         = stats.numUpdated ∧
       (doWrite req senv (WriteOp.del denv) stats).stats.numModified
         = stats.numModified) ∧
    (∀ items i s, WriteStats.le s.stats (execLoop req senv items i s).stats) := by
  refine ⟨fun item stats => doWrite_stats_le req senv item stats,
          fun item stats h => doWrite_fail_stats req senv item stats h,
          ?_, ?_, ?_, execLoop_stats_le req senv⟩
  · intro doc ienv stats
    unfold doWrite
    cases h : shardVersionCheck req senv with
    | some err => simp
    | none =>
      simp only []
      split
      · simp
      · rcases doInsert_stats_cases req.ns doc ienv stats with h2 | ⟨_, h2⟩ <;> simp [h2]
  · intro uenv stats
    unfold doWrite
    cases h : shardVersionCheck req senv with
    | some err => simp
    | none =>
      rcases doUpdate_stats_cases uenv stats with h2 | ⟨_, h2⟩ <;> simp [h2]
  · intro denv stats
    unfold doWrite
    cases h : shardVersionCheck req senv with
    | some err => simp
    | none =>
      rcases doDelete_stats_cases denv stats with h2 | ⟨_, h2⟩ <;> simp [h2]

theorem c8_stats_counter_invariants_witness :
    (doWrite c2Req noSharding failIns WriteStats.zero).success = false ∧
    (doWrite c2Req noSharding failIns WriteStats.zero).stats = WriteStats.zero ∧
    WriteStats.le WriteStats.zero (doWrite c2Req noSharding okIns WriteStats.zero).stats :=
  ⟨by decide,
   (c8_stats_counter_invariants c2Req noSharding).2.1 failIns WriteStats.zero (by decide),
   (c8_stats_counter_invariants c2Req noSharding).1 okIns WriteStats.zero⟩

/-- C9: when the request is not verbose, `executeBatch` never populates
`n`, `nModified`, or the write-concern error field of the response. -/
theorem c9_verbose_gates_response (req : BatchRequest) (senv : ShardingEnv)
    (env : ExecEnv) (dwc : WriteConcernSpec) (hv : req.verbose = false) :
    (executeBatch req senv env dwc).resp.n = none ∧
    (executeBatch req senv env dwc).resp.nModified = none ∧
    (executeBatch req senv env dwc).resp.writeConcernError = none := by
  unfold executeBatch
  refine ⟨by simp [hv], by simp [hv], ?_⟩
  simp only [hv]
  split
  · simp
  · simp

theorem c9_verbose_gates_response_witness :
    c9Req.verbose = false ∧
    ((executeBatch c9Req noSharding quietEnv okWC).resp.n = none ∧
     (executeBatch c9Req noSharding quietEnv okWC).resp.nModified = none ∧
     (executeBatch c9Req noSharding quietEnv okWC).resp.writeConcernError = none) :=
  ⟨rfl, c9_verbose_gates_response c9Req noSharding quietEnv okWC rfl⟩

/-- C10: an insert into the `system.indexes` pseudo-collection whose
`createIndex` call reports the index already exists returns success but
leaves the stats untouched — in particular `numInserted` is not bumped,
so the item contributes nothing to `n` despite succeeding. -/
theorem c10_index_already_exists (ns : String) (doc : InsertDoc) (env : InsertEnv)
    (stats : WriteStats) (tns : String)
    (hns : nsToCollectionSubstring ns = "system.indexes")
    (hdoc : doc.nsField = some tns)
    (hexc : env.exception = none)
    (hcoll : (!env.collectionExists && !env.createCollectionSucceeds) = false)
    (hidx : env.createIndexStatus.code = ErrorCode.indexAlreadyExists) :
    (doInsert ns doc env stats).success = true ∧
    (doInsert ns doc env stats).stats = stats := by
  unfold doInsert
  simp [hns, hdoc, hexc, hcoll, hidx]

theorem c10_index_already_exists_witness :
    nsToCollectionSubstring "db.system.indexes" = "system.indexes" ∧
    idxDoc.nsField = some "db.coll" ∧
    idxExistsEnv.exception = none ∧
    (!idxExistsEnv.collectionExists && !idxExistsEnv.createCollectionSucceeds) = false ∧
    idxExistsEnv.createIndexStatus.code = ErrorCode.indexAlreadyExists ∧
    ((doInsert "db.system.indexes" idxDoc idxExistsEnv WriteStats.zero).success = true ∧
     (doInsert "db.system.indexes" idxDoc idxExistsEnv WriteStats.zero).stats
       = WriteStats.zero) :=
  ⟨by decide, rfl, rfl, rfl, rfl,
   c10_index_already_exists "db.system.indexes" idxDoc idxExistsEnv WriteStats.zero "db.coll"
     (by decide) rfl rfl rfl rfl⟩

end BatchExecutor
